import Mathlib

/-!
Verification of the Tube Poker simulation engine.

The development shallowly embeds the engine's core modules:
payout strategies and the tube payout calculator
(`src/engine/payoutStrategies.ts`), the house ledger
(`src/engine/houseLedger.ts`), the per-participant showdown resolution
(`resolveOutcomes` in the engine), the Hold-Type rule registry
(`src/engine/htRegistry.ts`) and the AI balancing engine
(`src/ai/balancingEngine.ts`).  JavaScript numbers are modelled as `ℚ`;
`Math.floor` becomes `Int.floor`; functions that `throw` return `Except`.
External collaborators (card deck, hand evaluator) are parameters of the
definitions that consume them, matching the module boundaries of the source.
-/

/-- One of the five reward tubes, keyed by qualifying hand rank. -/
inductive TubeType where
  | ST | FL | FH | SF | RF
deriving DecidableEq, Repr

/-- Printable name of a tube, as the string keys used in the source. -/
def tubeTypeName : TubeType → String
  | .ST => "ST"
  | .FL => "FL"
  | .FH => "FH"
  | .SF => "SF"
  | .RF => "RF"

/-- Per-tube configured limits (`{ initial; max }` in `TubeConfig`). -/
structure TubeLimits where
  initial : ℚ
  max : ℚ
deriving DecidableEq, Repr

/-- The five-tube configuration record (`TubeConfig` in `types.ts`). -/
structure TubeConfig where
  ST : TubeLimits
  FL : TubeLimits
  FH : TubeLimits
  SF : TubeLimits
  RF : TubeLimits
deriving DecidableEq, Repr

/-- Field access of a `TubeConfig` by tube key. -/
def TubeConfig.get (tc : TubeConfig) : TubeType → TubeLimits
  | .ST => tc.ST
  | .FL => tc.FL
  | .FH => tc.FH
  | .SF => tc.SF
  | .RF => tc.RF

/-- A record with one rational per tube (`TubeBalances` in `types.ts`;
also the shape of `tubeDrainRates` in `SimulationMetrics`). -/
structure TubeBalances where
  ST : ℚ
  FL : ℚ
  FH : ℚ
  SF : ℚ
  RF : ℚ
deriving DecidableEq, Repr

/-- Field access of a `TubeBalances` by tube key. -/
def TubeBalances.get (tb : TubeBalances) : TubeType → ℚ
  | .ST => tb.ST
  | .FL => tb.FL
  | .FH => tb.FH
  | .SF => tb.SF
  | .RF => tb.RF

/-- Functional update of one tube balance. -/
def TubeBalances.set (tb : TubeBalances) : TubeType → ℚ → TubeBalances
  | .ST, v => { tb with ST := v }
  | .FL, v => { tb with FL := v }
  | .FH, v => { tb with FH := v }
  | .SF, v => { tb with SF := v }
  | .RF, v => { tb with RF := v }

/-- Source `Object.values` of a five-tube record, in declaration order. -/
def TubeBalances.values (tb : TubeBalances) : List ℚ :=
  [tb.ST, tb.FL, tb.FH, tb.SF, tb.RF]

/-- The payout-strategy selector enum (`PayoutStrategyType`). -/
inductive PayoutStrategyType where
  | fixed | percentage | logarithmic | progressive
deriving DecidableEq, Repr

/-- Argument record passed to a strategy
(`{ current; initial; max }` in `payoutStrategies.ts`). -/
structure TubeInfo where
  current : ℚ
  initial : ℚ
  max : ℚ
deriving DecidableEq, Repr

/-- A pluggable payout strategy (`PayoutStrategy` in `types.ts`). -/
structure PayoutStrategy where
  type : PayoutStrategyType
  calculate : TubeInfo → ℚ

/-- Source `fixedStrategy`: always pays the configured initial balance. -/
def fixedStrategy : PayoutStrategy :=
  { type := .fixed, calculate := fun tube => tube.initial }

/-- Source `createPercentageStrategy`: pays `Math.floor(current * percent)`. -/
def createPercentageStrategy (percent : ℚ) : PayoutStrategy :=
  { type := .percentage
    calculate := fun tube => ((⌊tube.current * percent⌋ : ℤ) : ℚ) }

/-- Source `createProgressiveStrategy`: pays `floor(initial * multiplier)` where the
multiplier grows with the fill ratio past the threshold. -/
def createProgressiveStrategy (threshold : ℚ) : PayoutStrategy :=
  { type := .progressive
    calculate := fun tube =>
      let fillRatio := tube.current / tube.max
      let multiplier := if fillRatio > threshold then 1 + (fillRatio - threshold) * 2 else 1
      ((⌊tube.initial * multiplier⌋ : ℤ) : ℚ) }

/-- Result record of `calculateTubePayout` (`TubePayoutResult`). -/
structure TubePayoutResult where
  payout : ℚ
  newBalance : ℚ
  wasEmpty : Bool
  triggersBust : Bool
deriving DecidableEq, Repr

/-- Source `calculateTubePayout` from `payoutStrategies.ts`: an empty tube redirects
the win into a bust; otherwise the strategy result is clamped to the current
balance and drained from the tube. -/
def calculateTubePayout (tubeType : String) (currentBalance initialBalance maxBalance : ℚ)
    (strategy : PayoutStrategy) : TubePayoutResult :=
  if currentBalance ≤ 0 then
    { payout := 0, newBalance := 0, wasEmpty := true, triggersBust := true }
  else
    let _ := tubeType
    let payout := strategy.calculate
      { current := currentBalance, initial := initialBalance, max := maxBalance }
    let actualPayout := min payout currentBalance
    let newBalance := currentBalance - actualPayout
    { payout := actualPayout, newBalance := newBalance, wasEmpty := false, triggersBust := false }

/-!  ## House ledger (`houseLedger.ts`)  -/

/-- The house ledger record (`HouseLedger` in `types.ts`). -/
structure HouseLedger where
  totalAnteCollected : ℚ
  totalPayoutsGiven : ℚ
  totalBustPenaltiesCollected : ℚ
  totalTubePayouts : ℚ
  netProfit : ℚ
  roundsPlayed : ℕ
  anteHistory : List ℚ
  payoutHistory : List ℚ
  bustHistory : List ℚ
deriving DecidableEq, Repr

/-- Source `createHouseLedger`: the all-zero ledger. -/
def createHouseLedger : HouseLedger :=
  { totalAnteCollected := 0
    totalPayoutsGiven := 0
    totalBustPenaltiesCollected := 0
    totalTubePayouts := 0
    netProfit := 0
    roundsPlayed := 0
    anteHistory := []
    payoutHistory := []
    bustHistory := [] }

/-- Source `updateNetProfit`: recompute the derived net-profit field. -/
def updateNetProfit (ledger : HouseLedger) : HouseLedger :=
  { ledger with
    netProfit := ledger.totalAnteCollected + ledger.totalBustPenaltiesCollected
      - ledger.totalPayoutsGiven }

/-- Source `recordAnteCollection`. -/
def recordAnteCollection (ledger : HouseLedger) (amount : ℚ) : HouseLedger :=
  updateNetProfit
    { ledger with
      totalAnteCollected := ledger.totalAnteCollected + amount
      anteHistory := ledger.anteHistory ++ [amount] }

/-- Source `recordPayout`. -/
def recordPayout (ledger : HouseLedger) (amount : ℚ) : HouseLedger :=
  updateNetProfit
    { ledger with
      totalPayoutsGiven := ledger.totalPayoutsGiven + amount
      payoutHistory := ledger.payoutHistory ++ [amount] }

/-- Source `recordTubePayout`: a tube payout counts as a payout as well. -/
def recordTubePayout (ledger : HouseLedger) (amount : ℚ) : HouseLedger :=
  updateNetProfit
    { ledger with
      totalTubePayouts := ledger.totalTubePayouts + amount
      totalPayoutsGiven := ledger.totalPayoutsGiven + amount
      payoutHistory := ledger.payoutHistory ++ [amount] }

/-- Source `recordBustPenalty`. -/
def recordBustPenalty (ledger : HouseLedger) (amount : ℚ) : HouseLedger :=
  updateNetProfit
    { ledger with
      totalBustPenaltiesCollected := ledger.totalBustPenaltiesCollected + amount
      bustHistory := ledger.bustHistory ++ [amount] }

/-- Source `recordRoundComplete`: bumps the round counter only. -/
def recordRoundComplete (ledger : HouseLedger) : HouseLedger :=
  { ledger with roundsPlayed := ledger.roundsPlayed + 1 }

/-- Outcome kinds of a participant for one round. -/
inductive OutcomeKind where
  | win | lose | bust | tie
deriving DecidableEq, Repr

/-- Hand-rank categories produced by the external hand evaluator. -/
inductive HandRank where
  | highCard | pair | twoPair | threeOfAKind | straight
  | flush | fullHouse | fourOfAKind | straightFlush | royalFlush
deriving DecidableEq, Repr

/-- One participant's immutable per-round result (`ParticipantOutcome`). -/
structure ParticipantOutcome where
  participantId : String
  outcome : OutcomeKind
  handRank : HandRank
  payout : ℚ
  tubePayout : ℚ
  bustPenalty : ℚ
deriving DecidableEq, Repr

/-- A tube drain event (`TubePayoutRecord`). -/
structure TubePayoutRecord where
  tubeType : TubeType
  amount : ℚ
  participantId : String
  timestamp : ℕ
deriving DecidableEq, Repr

/-- A bust penalty event (`BustPenaltyRecord`). -/
structure BustPenaltyRecord where
  participantId : String
  amount : ℚ
  reason : String
  timestamp : ℕ
deriving DecidableEq, Repr

/-- Source `processRoundOutcomes` from `houseLedger.ts`: ante, then tube payouts,
then bust penalties, then regular payouts of winning outcomes only, then the
round counter. -/
def processRoundOutcomes (ledger : HouseLedger) (outcomes : List ParticipantOutcome)
    (tubePayouts : List TubePayoutRecord) (bustPenalties : List BustPenaltyRecord)
    (anteCollected : ℚ) : HouseLedger :=
  let l1 := recordAnteCollection ledger anteCollected
  let l2 := tubePayouts.foldl (fun acc tp => recordTubePayout acc tp.amount) l1
  let l3 := bustPenalties.foldl (fun acc b => recordBustPenalty acc b.amount) l2
  let l4 := outcomes.foldl
    (fun acc o => if o.outcome = .win ∧ o.payout > 0 then recordPayout acc o.payout else acc) l3
  recordRoundComplete l4

/-!  ## Showdown resolution (`resolveOutcomes` in the engine)  -/

/-- The engine configuration (`EngineConfig` in `types.ts`). -/
structure EngineConfig where
  playerCount : ℕ
  ante : ℚ
  dealerDrawAllowed : Bool
  dealerBustAllowed : Bool
  dealerWinsOnTie : Bool
  dealerAggression : ℚ
  bustPenaltyMultiplier : ℚ
  tubes : TubeConfig
  payoutStrategy : PayoutStrategyType
  playerRefillsOnWin : Bool
  houseRefillsOnEmpty : Bool
  refillAmount : ℚ
  autoRefillThreshold : ℚ
  bonusPayoutThreshold : ℚ
deriving DecidableEq, Repr

/-- Source `DEFAULT_ENGINE_CONFIG` from `types.ts`. -/
def DEFAULT_ENGINE_CONFIG : EngineConfig :=
  { playerCount := 4
    ante := 5
    dealerDrawAllowed := true
    dealerBustAllowed := true
    dealerWinsOnTie := false
    dealerAggression := 1/2
    bustPenaltyMultiplier := 1
    tubes :=
      { ST := { initial := 5, max := 10 }
        FL := { initial := 10, max := 20 }
        FH := { initial := 15, max := 30 }
        SF := { initial := 20, max := 40 }
        RF := { initial := 25, max := 50 } }
    payoutStrategy := .fixed
    playerRefillsOnWin := true
    houseRefillsOnEmpty := true
    refillAmount := 1
    autoRefillThreshold := 2
    bonusPayoutThreshold := 40 }

/-- Source `handRankToTube`: the rank-to-tube mapping of the engine. -/
def handRankToTube : HandRank → Option TubeType
  | .straight => some .ST
  | .flush => some .FL
  | .fullHouse => some .FH
  | .straightFlush => some .SF
  | .royalFlush => some .RF
  | _ => none

/-- The stats-layer outcome passed to `HTRegistry.recordOutcome` during the
showdown: a tie is reported as a win (`outcome === "tie" ? "win" : outcome`). -/
def statsOutcomeOf (o : OutcomeKind) : OutcomeKind :=
  if o = .tie then .win else o

/-- Everything the showdown produces for one participant: the outcome record
pushed to the round, the arguments of the `recordOutcome` stats call, and the
updated tube balances. -/
structure ResolveResult where
  po : ParticipantOutcome
  statsOutcome : OutcomeKind
  statsWagered : ℚ
  statsWon : ℚ
  newTubeBalances : TubeBalances
deriving DecidableEq, Repr

/-- The per-participant body of `resolveOutcomes`: given the comparison of the
participant's hand against the dealer's, produce the outcome record, the tube
update and the stats-layer call.  The payout strategy is the one selected by
`getPayoutStrategy(config.payoutStrategy)` and is passed in explicitly. -/
def resolveParticipant (config : EngineConfig) (strategy : PayoutStrategy)
    (pid : String) (handRank : HandRank) (comparison : ℤ)
    (tubeBalances : TubeBalances) : ResolveResult :=
  let res :=
    if comparison > 0 then
      match handRankToTube handRank with
      | some tubeType =>
        let tubeConfig := config.tubes.get tubeType
        let currentBalance := tubeBalances.get tubeType
        let result := calculateTubePayout (tubeTypeName tubeType) currentBalance
          tubeConfig.initial tubeConfig.max strategy
        if result.triggersBust then
          (OutcomeKind.bust, (0 : ℚ), (0 : ℚ), config.ante * config.bustPenaltyMultiplier,
            tubeBalances)
        else
          (OutcomeKind.win, (0 : ℚ), result.payout, (0 : ℚ),
            tubeBalances.set tubeType result.newBalance)
      | none =>
        (OutcomeKind.win, config.ante, (0 : ℚ), (0 : ℚ), tubeBalances)
    else if comparison < 0 then
      (OutcomeKind.lose, (0 : ℚ), (0 : ℚ), (0 : ℚ), tubeBalances)
    else
      let outcome := if config.dealerWinsOnTie then OutcomeKind.lose else OutcomeKind.tie
      let payout := if outcome = OutcomeKind.tie then config.ante else 0
      (outcome, payout, (0 : ℚ), (0 : ℚ), tubeBalances)
  let (outcome, payout, tubePayout, bustPenalty, newBalances) := res
  { po :=
      { participantId := pid
        outcome := outcome
        handRank := handRank
        payout := payout
        tubePayout := tubePayout
        bustPenalty := bustPenalty }
    statsOutcome := statsOutcomeOf outcome
    statsWagered := config.ante
    statsWon := payout + tubePayout
    newTubeBalances := newBalances }

/-!  ## Hold-Type registry (`htRegistry.ts`)  -/

/-- Card ranks of a standard deck. -/
inductive Rank where
  | two | three | four | five | six | seven | eight | nine | ten
  | jack | queen | king | ace
deriving DecidableEq, Repr

/-- Card suits. -/
inductive Suit where
  | clubs | diamonds | hearts | spades
deriving DecidableEq, Repr

/-- A playing card as consumed by the HT matchers. -/
structure Card where
  rank : Rank
  suit : Suit
deriving DecidableEq, Repr

/-- The classification record returned by the external hand evaluator;
the registry's matchers consume only its `rank` field. -/
structure HandResult where
  rank : HandRank
deriving DecidableEq, Repr

/-- Result of the external `has4CardFlushDraw` predicate. -/
structure FlushDrawResult where
  hasFlushDraw : Bool
  cardsToHold : Option (List ℕ)
deriving DecidableEq, Repr

/-- Result of the external `has4CardStraightDraw` predicate. -/
structure StraightDrawResult where
  hasStraightDraw : Bool
  cardsToHold : Option (List ℕ)
deriving DecidableEq, Repr

/-- The external hand-evaluator module (`@/utils/handEvaluator`), a
collaborator of the registry: hand classification plus the two
four-card-draw predicates. -/
structure HandEval where
  evaluateHand : List Card → HandResult
  has4CardFlushDraw : List Card → FlushDrawResult
  has4CardStraightDraw : List Card → StraightDrawResult

/-- An HT rule (`HTRule`): identity, priority, flags and a matcher from the
hand and its classification to the positions to hold, or none. -/
structure HTRule where
  id : String
  priority : ℤ
  category : String
  description : String
  bustPotential : Bool
  theoreticalEV : ℚ
  enabled : Bool
  matcher : List Card → HandResult → Option (List ℕ)

/-- Per-rule running statistics (`HTStats`). -/
structure HTStats where
  usageCount : ℕ
  winCount : ℕ
  lossCount : ℕ
  bustCount : ℕ
  totalWon : ℚ
  totalWagered : ℚ
  tubeHits : List (String × ℕ)
  calculatedEV : ℚ
deriving DecidableEq, Repr

/-- Source `createEmptyStats`. -/
def createEmptyStats : HTStats :=
  { usageCount := 0
    winCount := 0
    lossCount := 0
    bustCount := 0
    totalWon := 0
    totalWagered := 0
    tubeHits := [("ST", 0), ("FL", 0), ("FH", 0), ("SF", 0), ("RF", 0)]
    calculatedEV := 0 }

/-- The registry's state: the rule map and the stats map of
`HTRegistryClass`, as association lists in insertion order. -/
structure HTRegistryState where
  rules : List HTRule
  stats : List (String × HTStats)

/-- Map-style insertion used by `register`: replace the entry with the same
key if present, otherwise append. -/
def listMapSet {α : Type} (l : List (String × α)) (key : String) (v : α) :
    List (String × α) :=
  if l.any (fun p => p.1 == key) then
    l.map (fun p => if p.1 == key then (key, v) else p)
  else
    l ++ [(key, v)]

/-- Source `register`: store the rule under its id and give it empty stats. -/
def registerRule (st : HTRegistryState) (rule : HTRule) : HTRegistryState :=
  { rules :=
      if st.rules.any (fun r => r.id == rule.id) then
        st.rules.map (fun r => if r.id == rule.id then rule else r)
      else
        st.rules ++ [rule]
    stats := listMapSet st.stats rule.id createEmptyStats }

/-- Source `setEnabled`: toggle the enabled flag of the rule with the given id,
leaving everything else untouched. -/
def setEnabled (st : HTRegistryState) (htId : String) (enabled : Bool) : HTRegistryState :=
  { st with
    rules := st.rules.map (fun r => if r.id = htId then { r with enabled := enabled } else r) }

/-- Stable insertion of a rule into a list sorted by descending priority. -/
def insertByPriorityDesc (r : HTRule) : List HTRule → List HTRule
  | [] => [r]
  | y :: ys => if y.priority < r.priority then r :: y :: ys else y :: insertByPriorityDesc r ys

/-- Stable sort by descending priority, as the JavaScript
`sort((a, b) => b.priority - a.priority)`. -/
def sortByPriorityDesc : List HTRule → List HTRule
  | [] => []
  | x :: xs => insertByPriorityDesc x (sortByPriorityDesc xs)

/-- Source `getAllRules`: the enabled rules, sorted by descending priority. -/
def getAllRules (st : HTRegistryState) : List HTRule :=
  sortByPriorityDesc (st.rules.filter (fun r => r.enabled))

/-- The decision record returned by `decide` (`HTDecision`). -/
structure HTDecision where
  htId : String
  category : String
  description : String
  cardsToHold : List ℕ
  expectedValue : ℚ
  bustPotential : Bool
deriving DecidableEq, Repr

/-- The matching loop of `decide`: the decision of the first rule whose
matcher accepts the hand. -/
def firstMatch (rules : List HTRule) (cards : List Card) (handResult : HandResult) :
    Option HTDecision :=
  rules.findSome? (fun rule =>
    (rule.matcher cards handResult).map (fun cardsToHold =>
      { htId := rule.id
        category := rule.category
        description := rule.description
        cardsToHold := cardsToHold
        expectedValue := rule.theoreticalEV
        bustPotential := rule.bustPotential }))

/-- Source `decide`: reject hands that are not exactly 5 cards, otherwise run the
matching loop over the enabled rules and fall back to a hard-coded
draw-all-five decision when no rule matches. -/
def HTRegistry.decide (he : HandEval) (st : HTRegistryState) (cards : List Card) :
    Except String HTDecision :=
  if cards.length ≠ 5 then
    Except.error ("HT decision requires exactly 5 cards")
  else
    let handResult := he.evaluateHand cards
    match firstMatch (getAllRules st) cards handResult with
    | some decision => Except.ok decision
    | none =>
      Except.ok
        { htId := "H0.DRAW5"
          category := "H0"
          description := "Draw all 5"
          cardsToHold := []
          expectedValue := 1/2
          bustPotential := true }

/-- Source `recordOutcome`: fold one participant outcome into the named rule's
stats; an unknown id is ignored. -/
def recordOutcome (st : HTRegistryState) (htId : String) (outcome : OutcomeKind)
    (wagered won : ℚ) (tubeType : Option String) : HTRegistryState :=
  match st.stats.lookup htId with
  | none => st
  | some stats =>
    let stats1 :=
      { stats with
        usageCount := stats.usageCount + 1
        totalWagered := stats.totalWagered + wagered
        totalWon := stats.totalWon + won }
    let stats2 :=
      if outcome = .win then { stats1 with winCount := stats1.winCount + 1 }
      else if outcome = .lose then { stats1 with lossCount := stats1.lossCount + 1 }
      else if outcome = .bust then { stats1 with bustCount := stats1.bustCount + 1 }
      else stats1
    let stats3 : HTStats :=
      match tubeType with
      | some t =>
        if stats2.tubeHits.any (fun p => p.1 == t) then
          { stats2 with
            tubeHits := stats2.tubeHits.map (fun p => if p.1 == t then (p.1, p.2 + 1) else p) }
        else stats2
      | none => stats2
    let stats4 :=
      if stats3.totalWagered > 0 then
        { stats3 with calculatedEV := (stats3.totalWon - stats3.totalWagered) / stats3.totalWagered }
      else stats3
    { st with stats := listMapSet st.stats htId stats4 }

/-- Group helper of `findNOfAKind` and `findTwoPairs`: indices of the cards
carrying a given rank. -/
def rankIndices (cards : List Card) (r : Rank) : List ℕ :=
  cards.enum.filterMap (fun p => if p.2.rank = r then some p.1 else none)

/-- The distinct ranks of a hand in order of first occurrence. -/
def distinctRanks (cards : List Card) : List Rank :=
  cards.foldl (fun acc c => if c.rank ∈ acc then acc else acc ++ [c.rank]) []

/-- Source `findNOfAKind`: the index group of the first rank held by exactly `n`
cards, or none. -/
def findNOfAKind (cards : List Card) (n : ℕ) : Option (List ℕ) :=
  (distinctRanks cards).findSome? (fun r =>
    let indices := rankIndices cards r
    if indices.length = n then some indices else none)

/-- Source `findTwoPairs`: the concatenated index groups of the first two pairs,
or none when fewer than two pairs exist. -/
def findTwoPairs (cards : List Card) : Option (List ℕ) :=
  let pairs := (distinctRanks cards).filterMap (fun r =>
    let indices := rankIndices cards r
    if indices.length = 2 then some indices else none)
  match pairs with
  | p1 :: p2 :: _ => some (p1 ++ p2)
  | _ => none

/-- The thirteen default rules registered by `registerDefaultRules`, in
registration order, with the matchers of the source. -/
def defaultRules (he : HandEval) : List HTRule :=
  [ { id := "H5.RF", priority := 100, category := "H5"
      description := "Royal Flush - Hold all", bustPotential := false
      theoreticalEV := 25, enabled := true
      matcher := fun _ result =>
        if result.rank = .royalFlush then some [0, 1, 2, 3, 4] else none }
  , { id := "H5.SF", priority := 99, category := "H5"
      description := "Straight Flush - Hold all", bustPotential := false
      theoreticalEV := 20, enabled := true
      matcher := fun _ result =>
        if result.rank = .straightFlush then some [0, 1, 2, 3, 4] else none }
  , { id := "H5.4K", priority := 98, category := "H5"
      description := "Four of a Kind - Hold all", bustPotential := false
      theoreticalEV := 15, enabled := true
      matcher := fun _ result =>
        if result.rank = .fourOfAKind then some [0, 1, 2, 3, 4] else none }
  , { id := "H5.FH", priority := 97, category := "H5"
      description := "Full House - Hold all", bustPotential := false
      theoreticalEV := 15, enabled := true
      matcher := fun _ result =>
        if result.rank = .fullHouse then some [0, 1, 2, 3, 4] else none }
  , { id := "H5.FL", priority := 96, category := "H5"
      description := "Flush - Hold all", bustPotential := false
      theoreticalEV := 10, enabled := true
      matcher := fun _ result =>
        if result.rank = .flush then some [0, 1, 2, 3, 4] else none }
  , { id := "H5.ST", priority := 95, category := "H5"
      description := "Straight - Hold all", bustPotential := false
      theoreticalEV := 5, enabled := true
      matcher := fun _ result =>
        if result.rank = .straight then some [0, 1, 2, 3, 4] else none }
  , { id := "H4.4FL", priority := 85, category := "H4"
      description := "4-card Flush draw", bustPotential := true
      theoreticalEV := 11/2, enabled := true
      matcher := fun cards _ =>
        let flushDraw := he.has4CardFlushDraw cards
        if flushDraw.hasFlushDraw then some (flushDraw.cardsToHold.getD []) else none }
  , { id := "H4.4ST", priority := 80, category := "H4"
      description := "4-card Straight draw", bustPotential := true
      theoreticalEV := 4, enabled := true
      matcher := fun cards _ =>
        let straightDraw := he.has4CardStraightDraw cards
        if straightDraw.hasStraightDraw then some (straightDraw.cardsToHold.getD []) else none }
  , { id := "H3.3K", priority := 75, category := "H3"
      description := "Three of a Kind - Hold trips", bustPotential := false
      theoreticalEV := 6, enabled := true
      matcher := fun cards result =>
        if result.rank = .threeOfAKind then findNOfAKind cards 3 else none }
  , { id := "H2.2P", priority := 70, category := "H2"
      description := "Two Pair - Hold both pairs", bustPotential := false
      theoreticalEV := 9/2, enabled := true
      matcher := fun cards result =>
        if result.rank = .twoPair then findTwoPairs cards else none }
  , { id := "H2.1P", priority := 65, category := "H2"
      description := "One Pair - Hold pair", bustPotential := false
      theoreticalEV := 5/2, enabled := true
      matcher := fun cards result =>
        if result.rank = .pair then findNOfAKind cards 2 else none }
  , { id := "H1.HC", priority := 50, category := "H1"
      description := "Hold highest card (A or K)", bustPotential := true
      theoreticalEV := 1, enabled := true
      matcher := fun cards result =>
        if result.rank = .highCard then
          (cards.enum.find? (fun p => p.2.rank == Rank.ace || p.2.rank == Rank.king)).map
            (fun p => [p.1])
        else none }
  , { id := "H0.DRAW5", priority := 0, category := "H0"
      description := "Draw all 5 - no holdings", bustPotential := true
      theoreticalEV := 1/2, enabled := true
      matcher := fun _ _ => some [] } ]

/-- The registry singleton after construction: all default rules registered,
each with empty stats. -/
def defaultRegistry (he : HandEval) : HTRegistryState :=
  (defaultRules he).foldl registerRule { rules := [], stats := [] }

/-!  ## AI balancing engine (`balancingEngine.ts`)  -/

/-- The four penalty weights of the objective (`ObjectiveWeights`). -/
structure ObjectiveWeights where
  edgeDeviation : ℚ
  volatility : ℚ
  tubeDrain : ℚ
  exploitRisk : ℚ
deriving DecidableEq, Repr

/-- The optimization objective (`OptimizationObjective`). -/
structure OptimizationObjective where
  targetEdge : ℚ
  edgeTolerance : ℚ
  maxVolatility : ℚ
  maxExploitEV : ℚ
  weights : ObjectiveWeights
deriving DecidableEq, Repr

/-- Source `DEFAULT_OBJECTIVE` from `balancingEngine.ts`. -/
def DEFAULT_OBJECTIVE : OptimizationObjective :=
  { targetEdge := 1/20
    edgeTolerance := 1/50
    maxVolatility := 25
    maxExploitEV := 1/50
    weights :=
      { edgeDeviation := 1
        volatility := 1/2
        tubeDrain := 3/10
        exploitRisk := 4/5 } }

/-- One batch's measured metrics (`SimulationMetrics`); exploitable HTs are
`(htId, ev)` pairs. -/
structure SimulationMetrics where
  houseEdge : ℚ
  volatilityIndex : ℚ
  tubeDrainRates : TubeBalances
  exploitableHTs : List (String × ℚ)
  playerReturnRate : ℚ
  bustRate : ℚ
  avgRoundDelta : ℚ
deriving DecidableEq, Repr

/-- The learning rate of `AIBalancingEngine` (a fixed private field, 0.1). -/
def learningRate : ℚ := 1/10

/-- Source `AIBalancingEngine.calculateScore`, lower is better: edge deviation,
volatility excess, average tube drain excess, and a per-exploit penalty of
`ev * exploitRisk` for every exploitable HT whose EV exceeds the ceiling. -/
def calculateScore (objective : OptimizationObjective) (metrics : SimulationMetrics) : ℚ :=
  let edgeDev := |metrics.houseEdge - objective.targetEdge|
  let edgePenalty := edgeDev * objective.weights.edgeDeviation
  let volPenalty :=
    if metrics.volatilityIndex > objective.maxVolatility then
      (metrics.volatilityIndex - objective.maxVolatility) * objective.weights.volatility
    else 0
  let avgDrain := metrics.tubeDrainRates.values.foldl (· + ·) 0 / 5
  let drainPenalty :=
    if avgDrain > 3/10 then (avgDrain - 3/10) * objective.weights.tubeDrain else 0
  let exploitPenalty := metrics.exploitableHTs.foldl
    (fun sum ht =>
      sum + (if ht.2 > objective.maxExploitEV then ht.2 * objective.weights.exploitRisk else 0))
    0
  edgePenalty + volPenalty + drainPenalty + exploitPenalty

/-- Modelled from the spec wording of the score (spec section 4.4), for
comparison with `calculateScore`: the exploit term there is
`w_exploit * Σ (ev - maxExploitEV)` over the exploitable HTs above the
ceiling. -/
def specScore (objective : OptimizationObjective) (metrics : SimulationMetrics) : ℚ :=
  objective.weights.edgeDeviation * |metrics.houseEdge - objective.targetEdge|
    + objective.weights.volatility * max 0 (metrics.volatilityIndex - objective.maxVolatility)
    + objective.weights.tubeDrain
        * max 0 (metrics.tubeDrainRates.values.sum / 5 - 3/10)
    + objective.weights.exploitRisk
        * ((metrics.exploitableHTs.filter (fun ht => objective.maxExploitEV < ht.2)).map
            (fun ht => ht.2 - objective.maxExploitEV)).sum

/-- The score formula the code actually computes, written in the summation
style of the spec: identical to `specScore` except that the exploit term
sums the full `ev` of each offending HT instead of its excess over the
ceiling. -/
def specScoreAmended (objective : OptimizationObjective) (metrics : SimulationMetrics) : ℚ :=
  objective.weights.edgeDeviation * |metrics.houseEdge - objective.targetEdge|
    + objective.weights.volatility * max 0 (metrics.volatilityIndex - objective.maxVolatility)
    + objective.weights.tubeDrain
        * max 0 (metrics.tubeDrainRates.values.sum / 5 - 3/10)
    + objective.weights.exploitRisk
        * ((metrics.exploitableHTs.filter (fun ht => objective.maxExploitEV < ht.2)).map
            (fun ht => ht.2)).sum

/-- Source `AIBalancingEngine.isOptimal`. -/
def isOptimal (objective : OptimizationObjective) (metrics : SimulationMetrics) : Bool :=
  decide (|metrics.houseEdge - objective.targetEdge| ≤ objective.edgeTolerance)
    && decide (metrics.volatilityIndex ≤ objective.maxVolatility)
    && metrics.exploitableHTs.all (fun ht => decide (ht.2 ≤ objective.maxExploitEV))

/-- The partial configuration returned by `generateRecommendations`
(`Partial<EngineConfig>` restricted to the fields the method can set). -/
structure Recommendations where
  bustPenaltyMultiplier : Option ℚ
  tubes : Option TubeConfig
  refillAmount : Option ℚ
deriving DecidableEq, Repr

/-- The per-tube adjustment inside `generateRecommendations`: tubes draining
above 0.3 get `initial := floor(initial * (1 + drainRate * 0.5))`. -/
def adjustTube (limits : TubeLimits) (drainRate : ℚ) : TubeLimits :=
  if drainRate > 3/10 then
    { limits with initial := ((⌊limits.initial * (1 + drainRate * (1/2))⌋ : ℤ) : ℚ) }
  else limits

/-- The tube map built by `generateRecommendations` from a copy of the
current tube configuration. -/
def adjustTubes (tubes : TubeConfig) (drains : TubeBalances) : TubeConfig :=
  { ST := adjustTube tubes.ST drains.ST
    FL := adjustTube tubes.FL drains.FL
    FH := adjustTube tubes.FH drains.FH
    SF := adjustTube tubes.SF drains.SF
    RF := adjustTube tubes.RF drains.RF }

/-- Source `AIBalancingEngine.generateRecommendations`: the bust-penalty multiplier
is adjusted only when the edge gap exceeds 0.01 in absolute value; tube
initial values only when the average drain exceeds 0.3; the refill amount
only when it exceeds 0.4. -/
def generateRecommendations (objective : OptimizationObjective)
    (currentConfig : EngineConfig) (metrics : SimulationMetrics) : Recommendations :=
  let edgeGap := objective.targetEdge - metrics.houseEdge
  let bustPenaltyMultiplier :=
    if |edgeGap| > 1/100 then
      let adjustment := 1 + edgeGap * learningRate * 10
      some (max (1/2) (min 2 (currentConfig.bustPenaltyMultiplier * adjustment)))
    else none
  let avgDrain := metrics.tubeDrainRates.values.foldl (· + ·) 0 / 5
  let tubes :=
    if avgDrain > 3/10 then some (adjustTubes currentConfig.tubes metrics.tubeDrainRates)
    else none
  let refillAmount :=
    if avgDrain > 2/5 then some (min 5 (currentConfig.refillAmount + 1)) else none
  { bustPenaltyMultiplier := bustPenaltyMultiplier
    tubes := tubes
    refillAmount := refillAmount }

/-- Source `AIBalancingEngine.mitigateExploits`: disable, via `setEnabled`, every
reported exploit whose EV exceeds twice the configured ceiling. -/
def mitigateExploits (maxExploitEV : ℚ) (st : HTRegistryState)
    (exploits : List (String × ℚ)) : HTRegistryState :=
  exploits.foldl
    (fun s exploit =>
      if exploit.2 > maxExploitEV * 2 then setEnabled s exploit.1 false else s)
    st

/-- Whether `mitigateExploits` with the given report will disable the rule
with the given id. -/
def shouldDisable (maxExploitEV : ℚ) (exploits : List (String × ℚ)) (id : String) : Prop :=
  ∃ e ∈ exploits, e.1 = id ∧ maxExploitEV * 2 < e.2

instance (maxExploitEV : ℚ) (exploits : List (String × ℚ)) (id : String) :
    Decidable (shouldDisable maxExploitEV exploits id) :=
  List.decidableBEx _ exploits

/-!  ## Reachable ledger states  -/

/-- One call against the house ledger API. -/
inductive LedgerOp where
  | ante (amount : ℚ)
  | payout (amount : ℚ)
  | tubePayout (amount : ℚ)
  | bustPenalty (amount : ℚ)
  | roundComplete
  | processRound (outcomes : List ParticipantOutcome) (tubePayouts : List TubePayoutRecord)
      (bustPenalties : List BustPenaltyRecord) (anteCollected : ℚ)

/-- Apply one ledger call. -/
def applyLedgerOp (ledger : HouseLedger) : LedgerOp → HouseLedger
  | .ante a => recordAnteCollection ledger a
  | .payout a => recordPayout ledger a
  | .tubePayout a => recordTubePayout ledger a
  | .bustPenalty a => recordBustPenalty ledger a
  | .roundComplete => recordRoundComplete ledger
  | .processRound outcomes tubePayouts bustPenalties anteCollected =>
      processRoundOutcomes ledger outcomes tubePayouts bustPenalties anteCollected

/-- The conservation invariant of the ledger. -/
def ledgerConservation (l : HouseLedger) : Prop :=
  l.netProfit = l.totalAnteCollected + l.totalBustPenaltiesCollected - l.totalPayoutsGiven

/-- Source `updateNetProfit` establishes conservation outright. -/
theorem ledgerConservation_updateNetProfit (l : HouseLedger) :
    ledgerConservation (updateNetProfit l) := by
  simp [ledgerConservation, updateNetProfit]

/-- Every mutation entry point that ends in `updateNetProfit` establishes
conservation unconditionally. -/
theorem ledgerConservation_records (l : HouseLedger) (a : ℚ) :
    ledgerConservation (recordAnteCollection l a) ∧ ledgerConservation (recordPayout l a) ∧
    ledgerConservation (recordTubePayout l a) ∧ ledgerConservation (recordBustPenalty l a) := by
  refine ⟨?_, ?_, ?_, ?_⟩ <;>
    simp [recordAnteCollection, recordPayout, recordTubePayout, recordBustPenalty,
      ledgerConservation_updateNetProfit]

/-- Source `recordRoundComplete` touches none of the monetary fields. -/
theorem ledgerConservation_recordRoundComplete (l : HouseLedger)
    (h : ledgerConservation l) : ledgerConservation (recordRoundComplete l) := by
  simpa [ledgerConservation, recordRoundComplete] using h

/-- A fold over steps that each preserve a ledger predicate preserves it. -/
theorem ledger_foldl_preserves {α : Type} (P : HouseLedger → Prop)
    (f : HouseLedger → α → HouseLedger) (hf : ∀ l x, P l → P (f l x)) :
    ∀ (xs : List α) (l : HouseLedger), P l → P (xs.foldl f l) := by
  intro xs
  induction xs with
  | nil => intro l h; simpa using h
  | cons x xs ih =>
    intro l h
    simpa using ih (f l x) (hf l x h)

/-- Source `processRoundOutcomes` establishes conservation. -/
theorem ledgerConservation_processRoundOutcomes (l : HouseLedger)
    (outcomes : List ParticipantOutcome) (tubePayouts : List TubePayoutRecord)
    (bustPenalties : List BustPenaltyRecord) (anteCollected : ℚ) :
    ledgerConservation (processRoundOutcomes l outcomes tubePayouts bustPenalties anteCollected) := by
  unfold processRoundOutcomes
  apply ledgerConservation_recordRoundComplete
  apply ledger_foldl_preserves ledgerConservation _
    (fun l o _ => by
      by_cases h : o.outcome = OutcomeKind.win ∧ o.payout > 0
      · simpa [h] using (ledgerConservation_records l o.payout).2.1
      · simpa [h] using ‹ledgerConservation l›)
  apply ledger_foldl_preserves ledgerConservation _
    (fun l b _ => (ledgerConservation_records l b.amount).2.2.2)
  apply ledger_foldl_preserves ledgerConservation _
    (fun l t _ => (ledgerConservation_records l t.amount).2.2.1)
  exact (ledgerConservation_records l anteCollected).1

/-- Every single API call preserves conservation. -/
theorem ledgerConservation_applyLedgerOp (l : HouseLedger) (op : LedgerOp)
    (h : ledgerConservation l) : ledgerConservation (applyLedgerOp l op) := by
  cases op with
  | ante a => exact (ledgerConservation_records l a).1
  | payout a => exact (ledgerConservation_records l a).2.1
  | tubePayout a => exact (ledgerConservation_records l a).2.2.1
  | bustPenalty a => exact (ledgerConservation_records l a).2.2.2
  | roundComplete => exact ledgerConservation_recordRoundComplete l h
  | processRound outcomes tubePayouts bustPenalties anteCollected =>
    exact ledgerConservation_processRoundOutcomes l outcomes tubePayouts bustPenalties anteCollected

/-- C3: every ledger reachable from `createHouseLedger` by any sequence of
`recordAnteCollection`, `recordPayout`, `recordTubePayout`,
`recordBustPenalty`, `recordRoundComplete` and `processRoundOutcomes` calls
satisfies `netProfit = totalAnteCollected + totalBustPenaltiesCollected -
totalPayoutsGiven` after every individual call, and `recordTubePayout` adds
its amount to both `totalTubePayouts` and `totalPayoutsGiven`. -/
theorem c3_ledger_conservation :
    (∀ ops : List LedgerOp, ledgerConservation (ops.foldl applyLedgerOp createHouseLedger)) ∧
    (∀ (l : HouseLedger) (a : ℚ),
      (recordTubePayout l a).totalTubePayouts = l.totalTubePayouts + a ∧
      (recordTubePayout l a).totalPayoutsGiven = l.totalPayoutsGiven + a) := by
  constructor
  · intro ops
    apply ledger_foldl_preserves ledgerConservation applyLedgerOp
      (fun l op h => ledgerConservation_applyLedgerOp l op h)
    simp [ledgerConservation, createHouseLedger]
  · intro l a
    constructor <;> simp [recordTubePayout, updateNetProfit]

/-- C4: an empty or negative tube balance short-circuits the payout into a
bust event, for every strategy alike. -/
theorem c4_empty_tube_redirect (tubeType : String) (currentBalance initialBalance maxBalance : ℚ)
    (strategy : PayoutStrategy) (h : currentBalance ≤ 0) :
    calculateTubePayout tubeType currentBalance initialBalance maxBalance strategy =
      { payout := 0, newBalance := 0, wasEmpty := true, triggersBust := true } := by
  simp [calculateTubePayout, h]

/-- Witness for C4 at balance exactly 0 under the fixed strategy. -/
theorem c4_empty_tube_redirect_witness :
    (0 : ℚ) ≤ 0 ∧
    calculateTubePayout ("RF") 0 25 50 fixedStrategy =
      { payout := 0, newBalance := 0, wasEmpty := true, triggersBust := true } :=
  ⟨le_refl 0, c4_empty_tube_redirect ("RF") 0 25 50 fixedStrategy (le_refl 0)⟩

/-- C5: on a nonnegative balance the clamped payout never exceeds the
balance and the remaining balance is exactly the difference, hence
nonnegative; on a positive balance the payout is the min of the strategy
result and the balance. -/
theorem c5_tube_clamp (tubeType : String) (currentBalance initialBalance maxBalance : ℚ)
    (strategy : PayoutStrategy) (h : 0 ≤ currentBalance) :
    (calculateTubePayout tubeType currentBalance initialBalance maxBalance strategy).payout
        ≤ currentBalance ∧
    (calculateTubePayout tubeType currentBalance initialBalance maxBalance strategy).newBalance
        = currentBalance
          - (calculateTubePayout tubeType currentBalance initialBalance maxBalance strategy).payout ∧
    0 ≤ (calculateTubePayout tubeType currentBalance initialBalance maxBalance strategy).newBalance ∧
    (0 < currentBalance →
      (calculateTubePayout tubeType currentBalance initialBalance maxBalance strategy).payout
        = min (strategy.calculate
            { current := currentBalance, initial := initialBalance, max := maxBalance })
          currentBalance) := by
  by_cases hle : currentBalance ≤ 0
  · have hzero : currentBalance = 0 := le_antisymm hle h
    subst hzero
    refine ⟨?_, ?_, ?_, ?_⟩ <;> simp [calculateTubePayout]
  · have hpos : 0 < currentBalance := lt_of_not_le hle
    have hmin : min (strategy.calculate
        { current := currentBalance, initial := initialBalance, max := maxBalance })
        currentBalance ≤ currentBalance := min_le_right _ _
    refine ⟨?_, ?_, ?_, fun _ => ?_⟩ <;> simp [calculateTubePayout, hle]

/-- Witness for C5 at balance 3 under the fixed strategy with initial 10. -/
theorem c5_tube_clamp_witness :
    (0 : ℚ) ≤ 3 ∧
    ((calculateTubePayout ("ST") 3 10 20 fixedStrategy).payout ≤ 3 ∧
      (calculateTubePayout ("ST") 3 10 20 fixedStrategy).newBalance =
        3 - (calculateTubePayout ("ST") 3 10 20 fixedStrategy).payout ∧
      0 ≤ (calculateTubePayout ("ST") 3 10 20 fixedStrategy).newBalance ∧
      (0 < (3 : ℚ) →
        (calculateTubePayout ("ST") 3 10 20 fixedStrategy).payout =
          min (fixedStrategy.calculate { current := 3, initial := 10, max := 20 }) 3)) :=
  ⟨by norm_num, c5_tube_clamp ("ST") 3 10 20 fixedStrategy (by norm_num)⟩

/-- C8: under the percentage strategy (p = 0.25) a tube holding a positive
integer balance never drains to exactly zero: the clamped drain leaves a
strictly positive remainder. -/
theorem c8_percentage_never_empties (tubeType : String) (initialBalance maxBalance : ℚ)
    (n : ℕ) (h : 1 ≤ n) :
    0 < (calculateTubePayout tubeType (n : ℚ) initialBalance maxBalance
      (createPercentageStrategy (1/4))).newBalance := by
  have hone : (1 : ℚ) ≤ (n : ℚ) := by exact_mod_cast h
  have hpos : (0 : ℚ) < (n : ℚ) := by linarith
  have hnotle : ¬ (n : ℚ) ≤ 0 := not_le.mpr hpos
  have hfloor : ((⌊(n : ℚ) * (1/4)⌋ : ℤ) : ℚ) ≤ (n : ℚ) * (1/4) := Int.floor_le _
  have hlt : (n : ℚ) * (1/4) ≤ (n : ℚ) := by linarith
  have hmin : min ((⌊(n : ℚ) * (1/4)⌋ : ℤ) : ℚ) (n : ℚ) = ((⌊(n : ℚ) * (1/4)⌋ : ℤ) : ℚ) :=
    min_eq_left (le_trans hfloor hlt)
  simp only [calculateTubePayout, createPercentageStrategy, hnotle, if_false]
  rw [hmin]
  linarith

/-- Witness for C8 at balance 1: the drain is 0 and the balance stays 1. -/
theorem c8_percentage_never_empties_witness :
    1 ≤ 1 ∧
    0 < (calculateTubePayout ("ST") ((1 : ℕ) : ℚ) 5 10
      (createPercentageStrategy (1/4))).newBalance :=
  ⟨le_refl 1, c8_percentage_never_empties ("ST") 5 10 1 (le_refl 1)⟩

/-- C10: `recordOutcome` with an id that has no stats entry is a silent
no-op: it signals nothing and returns the registry state unchanged. -/
theorem c10_recordOutcome_unknown_id_noop (st : HTRegistryState) (htId : String)
    (outcome : OutcomeKind) (wagered won : ℚ) (tubeType : Option String)
    (h : st.stats.lookup htId = none) :
    recordOutcome st htId outcome wagered won tubeType = st := by
  unfold recordOutcome
  rw [h]

/-- A concrete stand-in for the external hand evaluator: classifies every
hand as a plain high card with no four-card draws — exactly the
classification of a hand such as 2, 4, 6, 8, 10 in mixed suits. -/
def constHandEval : HandEval :=
  { evaluateHand := fun _ => { rank := .highCard }
    has4CardFlushDraw := fun _ => { hasFlushDraw := false, cardsToHold := none }
    has4CardStraightDraw := fun _ => { hasStraightDraw := false, cardsToHold := none } }

/-- A concrete 5-card high-card hand with no ace or king and no draws:
2, 4, 6, 8, 10 in mixed suits. -/
def sampleHand : List Card :=
  [ { rank := .two, suit := .clubs }
  , { rank := .four, suit := .diamonds }
  , { rank := .six, suit := .hearts }
  , { rank := .eight, suit := .spades }
  , { rank := .ten, suit := .clubs } ]

/-- Witness for C10: the default registry has no stats entry for the id
NOPE, and `recordOutcome` on it returns the registry unchanged. -/
theorem c10_recordOutcome_unknown_id_noop_witness :
    (defaultRegistry constHandEval).stats.lookup ("NOPE") = none ∧
    recordOutcome (defaultRegistry constHandEval) "NOPE" .win 5 5 none =
      defaultRegistry constHandEval :=
  ⟨by rfl,
    c10_recordOutcome_unknown_id_noop (defaultRegistry constHandEval) "NOPE" .win 5 5 none
      (by rfl)⟩

/-- On any registry state, `HTRegistry.decide` signals the wrong-card-count
error exactly when the hand is not 5 cards, and every 5-card hand gets a
decision: the matching loop either finds a rule or the hard-coded
draw-all-five fallback answers. -/
theorem decide_total_on_any_state (he : HandEval) (st : HTRegistryState) (cards : List Card) :
    (HTRegistry.decide he st cards =
        Except.error ("HT decision requires exactly 5 cards") ↔ cards.length ≠ 5) ∧
    (cards.length = 5 → ∃ d, HTRegistry.decide he st cards = Except.ok d) := by
  by_cases h5 : cards.length = 5
  · constructor
    · unfold HTRegistry.decide
      simp only [h5, ne_eq, not_true_eq_false, if_false, iff_false]
      cases hfm : firstMatch (getAllRules st) cards (he.evaluateHand cards) with
      | some d => simp [hfm]
      | none => simp [hfm]
    · intro _
      unfold HTRegistry.decide
      simp only [h5, ne_eq, not_true_eq_false, if_false]
      cases hfm : firstMatch (getAllRules st) cards (he.evaluateHand cards) with
      | some d => exact ⟨d, by simp [hfm]⟩
      | none =>
        exact ⟨{ htId := "H0.DRAW5", category := "H0", description := "Draw all 5"
                 cardsToHold := [], expectedValue := 1/2, bustPotential := true },
          by simp [hfm]⟩
  · constructor
    · simp [HTRegistry.decide, h5]
    · intro h; exact absurd h h5

/-- C6: on the registry singleton with the default rules registered,
`HTRegistry.decide` signals the contract error exactly when the hand is not
5 cards, and every 5-card hand gets a decision. -/
theorem c6_decide_totality (he : HandEval) (cards : List Card) :
    (HTRegistry.decide he (defaultRegistry he) cards =
        Except.error ("HT decision requires exactly 5 cards") ↔ cards.length ≠ 5) ∧
    (cards.length = 5 →
      ∃ d, HTRegistry.decide he (defaultRegistry he) cards = Except.ok d) :=
  decide_total_on_any_state he (defaultRegistry he) cards

/-- Witness for C6: the sample hand has 5 cards and receives a decision. -/
theorem c6_decide_totality_witness :
    sampleHand.length = 5 ∧
    ∃ d, HTRegistry.decide constHandEval (defaultRegistry constHandEval) sampleHand =
      Except.ok d :=
  ⟨by rfl, (c6_decide_totality constHandEval sampleHand).2 (by rfl)⟩

/-- Concrete tube balances used by the showdown examples. -/
def sampleBalances : TubeBalances :=
  { ST := 5, FL := 10, FH := 15, SF := 20, RF := 25 }

/-- C2 counterexample: under the default configuration (dealer does not win
ties, ante 5) a tied participant is resolved as outcome `tie` with payout 5
and reported to the stats layer as a win, but pushing that outcome through
`processRoundOutcomes` leaves `totalPayoutsGiven` at 0 — the ledger does
not record the tie refund as a payout, contradicting the claimed increase
by the ante. -/
theorem c2_tie_ledger_counterexample :
    (resolveParticipant DEFAULT_ENGINE_CONFIG fixedStrategy ("p1") HandRank.pair 0
        sampleBalances).po.outcome = OutcomeKind.tie ∧
    (resolveParticipant DEFAULT_ENGINE_CONFIG fixedStrategy ("p1") HandRank.pair 0
        sampleBalances).po.payout = 5 ∧
    (resolveParticipant DEFAULT_ENGINE_CONFIG fixedStrategy ("p1") HandRank.pair 0
        sampleBalances).statsOutcome = OutcomeKind.win ∧
    (processRoundOutcomes createHouseLedger
        [(resolveParticipant DEFAULT_ENGINE_CONFIG fixedStrategy ("p1") HandRank.pair 0
          sampleBalances).po] [] [] 20).totalPayoutsGiven = 0 ∧
    createHouseLedger.totalPayoutsGiven = 0 ∧ (0 : ℚ) ≠ 0 + 5 := by
  refine ⟨by rfl, by rfl, by rfl, by rfl, by rfl, by norm_num⟩

/-- C2 amended: with `dealerWinsOnTie` off, a tied participant's outcome
record is `tie` with a payout of the ante and the stats layer is told `win`;
the house ledger, however, skips non-win outcomes, so processing the round
leaves `totalPayoutsGiven` unchanged rather than increasing it by the
ante. -/
theorem c2_tie_ledger_amended (config : EngineConfig) (strategy : PayoutStrategy)
    (pid : String) (handRank : HandRank) (balances : TubeBalances)
    (ledger : HouseLedger) (anteCollected : ℚ)
    (h : config.dealerWinsOnTie = false) :
    (resolveParticipant config strategy pid handRank 0 balances).po.outcome
        = OutcomeKind.tie ∧
    (resolveParticipant config strategy pid handRank 0 balances).po.payout = config.ante ∧
    (resolveParticipant config strategy pid handRank 0 balances).statsOutcome
        = OutcomeKind.win ∧
    (processRoundOutcomes ledger
        [(resolveParticipant config strategy pid handRank 0 balances).po] [] []
        anteCollected).totalPayoutsGiven = ledger.totalPayoutsGiven := by
  have hres : resolveParticipant config strategy pid handRank 0 balances =
      { po :=
          { participantId := pid, outcome := OutcomeKind.tie, handRank := handRank
            payout := config.ante, tubePayout := 0, bustPenalty := 0 }
        statsOutcome := OutcomeKind.win
        statsWagered := config.ante
        statsWon := config.ante + 0
        newTubeBalances := balances } := by
    simp [resolveParticipant, statsOutcomeOf, h]
  refine ⟨by rw [hres], by rw [hres], by rw [hres], ?_⟩
  rw [hres]
  simp [processRoundOutcomes, recordRoundComplete, recordAnteCollection, updateNetProfit]

/-- Witness for C2 amended, at the default configuration. -/
theorem c2_tie_ledger_amended_witness :
    DEFAULT_ENGINE_CONFIG.dealerWinsOnTie = false ∧
    ((resolveParticipant DEFAULT_ENGINE_CONFIG fixedStrategy ("p2") HandRank.highCard 0
        sampleBalances).po.outcome = OutcomeKind.tie ∧
      (resolveParticipant DEFAULT_ENGINE_CONFIG fixedStrategy ("p2") HandRank.highCard 0
        sampleBalances).po.payout = DEFAULT_ENGINE_CONFIG.ante ∧
      (resolveParticipant DEFAULT_ENGINE_CONFIG fixedStrategy ("p2") HandRank.highCard 0
        sampleBalances).statsOutcome = OutcomeKind.win ∧
      (processRoundOutcomes createHouseLedger
        [(resolveParticipant DEFAULT_ENGINE_CONFIG fixedStrategy ("p2") HandRank.highCard 0
          sampleBalances).po] [] [] 20).totalPayoutsGiven =
        createHouseLedger.totalPayoutsGiven) :=
  ⟨rfl, c2_tie_ledger_amended DEFAULT_ENGINE_CONFIG fixedStrategy ("p2") HandRank.highCard
    sampleBalances createHouseLedger 20 rfl⟩

/-- Metrics that separate the code's score from the spec's score formula:
the edge sits on target, nothing else penalizes, and one exploitable HT
reports an EV of 0.05 against the default ceiling of 0.02. -/
def metricsExploitOnly : SimulationMetrics :=
  { houseEdge := 1/20
    volatilityIndex := 0
    tubeDrainRates := { ST := 0, FL := 0, FH := 0, SF := 0, RF := 0 }
    exploitableHTs := [("H1.HC", 1/20)]
    playerReturnRate := 0
    bustRate := 0
    avgRoundDelta := 0 }

/-- C1 counterexample: on the default objective and the metrics above, the
code scores `0.05 * 0.8 = 0.04` while the spec formula scores
`(0.05 - 0.02) * 0.8 = 0.024`: `calculateScore` multiplies the full EV of
each offending HT by the exploit weight, not its excess over the
ceiling. -/
theorem c1_score_counterexample :
    calculateScore DEFAULT_OBJECTIVE metricsExploitOnly = 1/25 ∧
    specScore DEFAULT_OBJECTIVE metricsExploitOnly = 3/125 ∧
    calculateScore DEFAULT_OBJECTIVE metricsExploitOnly ≠
      specScore DEFAULT_OBJECTIVE metricsExploitOnly := by
  refine ⟨?_, ?_, ?_⟩ <;>
    norm_num [calculateScore, specScore, DEFAULT_OBJECTIVE, metricsExploitOnly,
      TubeBalances.values]

/-- A guarded linear penalty is a weighted positive part. -/
theorem ite_penalty_eq_max (v c w : ℚ) :
    (if v > c then (v - c) * w else 0) = w * max 0 (v - c) := by
  rcases le_or_lt v c with h | h
  · rw [if_neg (not_lt.mpr h), max_eq_left (by linarith), mul_zero]
  · rw [if_pos h, max_eq_right (by linarith), mul_comm]

/-- The conditional exploit-penalty fold of `calculateScore` is the exploit
weight times the summed EVs of the HTs above the ceiling. -/
theorem exploit_foldl_eq (w c : ℚ) (l : List (String × ℚ)) (init : ℚ) :
    l.foldl (fun sum ht => sum + (if ht.2 > c then ht.2 * w else 0)) init =
      init + w * ((l.filter (fun ht => c < ht.2)).map (fun ht => ht.2)).sum := by
  induction l generalizing init with
  | nil => simp
  | cons a l ih =>
    by_cases h : c < a.2
    · rw [List.foldl_cons, if_pos h, ih, List.filter_cons, if_pos (decide_eq_true h),
        List.map_cons, List.sum_cons]
      ring
    · rw [List.foldl_cons, if_neg h, ih, List.filter_cons, if_neg (by simp [h])]
      ring

/-- C1 amended: `calculateScore` equals the spec's weighted-penalty formula
with the exploit term read as `w_exploit * Σ ev` over the exploitable HTs
whose EV exceeds the ceiling, instead of `w_exploit * Σ (ev - ceiling)`. -/
theorem c1_score_formula_amended (objective : OptimizationObjective)
    (metrics : SimulationMetrics) :
    calculateScore objective metrics = specScoreAmended objective metrics := by
  unfold calculateScore specScoreAmended
  rw [exploit_foldl_eq]
  have hdrain : metrics.tubeDrainRates.values.foldl (· + ·) 0 =
      metrics.tubeDrainRates.values.sum := by
    simp [TubeBalances.values]
    ring
  rw [hdrain]
  simp only [ite_penalty_eq_max]
  ring

/-- Metrics that are not optimal (volatility 30 against a ceiling of 25)
while the measured edge sits exactly on target. -/
def metricsVolOnly : SimulationMetrics :=
  { houseEdge := 1/20
    volatilityIndex := 30
    tubeDrainRates := { ST := 0, FL := 0, FH := 0, SF := 0, RF := 0 }
    exploitableHTs := []
    playerReturnRate := 0
    bustRate := 0
    avgRoundDelta := 0 }

/-- C9 counterexample: these metrics are not optimal, yet
`generateRecommendations` returns no bust-penalty multiplier at all — the
adjustment is gated on `|targetEdge - houseEdge| > 0.01`, which fails here,
so the claimed unconditional multiplier update does not happen. -/
theorem c9_recommendations_counterexample :
    isOptimal DEFAULT_OBJECTIVE metricsVolOnly = false ∧
    (generateRecommendations DEFAULT_OBJECTIVE DEFAULT_ENGINE_CONFIG
      metricsVolOnly).bustPenaltyMultiplier = none := by
  constructor <;>
    norm_num [isOptimal, generateRecommendations, DEFAULT_OBJECTIVE, DEFAULT_ENGINE_CONFIG,
      metricsVolOnly, TubeBalances.values, learningRate]

/-- C9 amended: each recommendation is gated. The bust-penalty multiplier
is returned exactly when the edge gap exceeds 0.01 in absolute value, and
then equals the current value times `1 + learningRate * 10 * (targetEdge -
houseEdge)` clamped to `[0.5, 2]`; tube recommendations are returned
exactly when the average drain exceeds 0.3, and then each tube draining
above 0.3 gets `initial := floor(initial * (1 + 0.5 * drainRate))` with its
max unchanged while calmer tubes are copied unchanged; the refill amount is
returned exactly when the average drain exceeds 0.4, and then equals
`min 5 (refillAmount + 1)`. -/
theorem c9_recommendations_amended (objective : OptimizationObjective)
    (cfg : EngineConfig) (m : SimulationMetrics) :
    (1/100 < |objective.targetEdge - m.houseEdge| →
      (generateRecommendations objective cfg m).bustPenaltyMultiplier =
        some (max (1/2) (min 2 (cfg.bustPenaltyMultiplier *
          (1 + learningRate * 10 * (objective.targetEdge - m.houseEdge)))))) ∧
    (|objective.targetEdge - m.houseEdge| ≤ 1/100 →
      (generateRecommendations objective cfg m).bustPenaltyMultiplier = none) ∧
    (3/10 < m.tubeDrainRates.values.sum / 5 →
      (generateRecommendations objective cfg m).tubes =
        some (adjustTubes cfg.tubes m.tubeDrainRates)) ∧
    (m.tubeDrainRates.values.sum / 5 ≤ 3/10 →
      (generateRecommendations objective cfg m).tubes = none) ∧
    (∀ t : TubeType, 3/10 < m.tubeDrainRates.get t →
      ((adjustTubes cfg.tubes m.tubeDrainRates).get t).initial =
        ((⌊(cfg.tubes.get t).initial * (1 + (1/2) * m.tubeDrainRates.get t)⌋ : ℤ) : ℚ) ∧
      ((adjustTubes cfg.tubes m.tubeDrainRates).get t).max = (cfg.tubes.get t).max) ∧
    (∀ t : TubeType, m.tubeDrainRates.get t ≤ 3/10 →
      (adjustTubes cfg.tubes m.tubeDrainRates).get t = cfg.tubes.get t) ∧
    (2/5 < m.tubeDrainRates.values.sum / 5 →
      (generateRecommendations objective cfg m).refillAmount =
        some (min 5 (cfg.refillAmount + 1))) ∧
    (m.tubeDrainRates.values.sum / 5 ≤ 2/5 →
      (generateRecommendations objective cfg m).refillAmount = none) := by
  have hdrain : m.tubeDrainRates.values.foldl (· + ·) 0 =
      m.tubeDrainRates.values.sum := by
    simp [TubeBalances.values]
    ring
  refine ⟨?_, ?_, ?_, ?_, ?_, ?_, ?_, ?_⟩
  · intro h
    have harg : cfg.bustPenaltyMultiplier *
        (1 + (objective.targetEdge - m.houseEdge) * learningRate * 10) =
        cfg.bustPenaltyMultiplier *
        (1 + learningRate * 10 * (objective.targetEdge - m.houseEdge)) := by
      ring
    simp only [generateRecommendations, if_pos h, harg]
  · intro h
    simp only [generateRecommendations, if_neg (not_lt.mpr h)]
  · intro h
    simp only [generateRecommendations, hdrain, if_pos h]
  · intro h
    simp only [generateRecommendations, hdrain, if_neg (not_lt.mpr h)]
  · intro t h
    cases t <;>
      (constructor <;>
        simp only [adjustTubes, adjustTube, TubeConfig.get, TubeBalances.get] <;>
        rw [if_pos (by simpa [TubeBalances.get] using h)]) <;>
      norm_num [mul_comm]
  · intro t h
    cases t <;>
      simp only [adjustTubes, adjustTube, TubeConfig.get, TubeBalances.get] <;>
      rw [if_neg (by simp [TubeBalances.get] at h; linarith)]
  · intro h
    simp only [generateRecommendations, hdrain, if_pos h]
  · intro h
    simp only [generateRecommendations, hdrain, if_neg (not_lt.mpr h)]

/-- Metrics with a large edge gap and every tube draining at rate 0.5:
all three recommendation gates are open. -/
def metricsHighDrain : SimulationMetrics :=
  { houseEdge := 0
    volatilityIndex := 0
    tubeDrainRates := { ST := 1/2, FL := 1/2, FH := 1/2, SF := 1/2, RF := 1/2 }
    exploitableHTs := []
    playerReturnRate := 0
    bustRate := 0
    avgRoundDelta := 0 }

/-- Witness for C9 amended: with the gates open, the multiplier, the tube
map and the refill amount are all recommended with the stated values. -/
theorem c9_recommendations_amended_witness :
    (1/100 < |DEFAULT_OBJECTIVE.targetEdge - metricsHighDrain.houseEdge|) ∧
    (generateRecommendations DEFAULT_OBJECTIVE DEFAULT_ENGINE_CONFIG
        metricsHighDrain).bustPenaltyMultiplier =
      some (max (1/2) (min 2 (DEFAULT_ENGINE_CONFIG.bustPenaltyMultiplier *
        (1 + learningRate * 10 *
          (DEFAULT_OBJECTIVE.targetEdge - metricsHighDrain.houseEdge))))) ∧
    (3/10 < metricsHighDrain.tubeDrainRates.values.sum / 5) ∧
    (generateRecommendations DEFAULT_OBJECTIVE DEFAULT_ENGINE_CONFIG
        metricsHighDrain).tubes =
      some (adjustTubes DEFAULT_ENGINE_CONFIG.tubes metricsHighDrain.tubeDrainRates) ∧
    (3/10 < metricsHighDrain.tubeDrainRates.get TubeType.ST) ∧
    ((adjustTubes DEFAULT_ENGINE_CONFIG.tubes
        metricsHighDrain.tubeDrainRates).get TubeType.ST).initial =
      ((⌊(DEFAULT_ENGINE_CONFIG.tubes.get TubeType.ST).initial *
        (1 + (1/2) * metricsHighDrain.tubeDrainRates.get TubeType.ST)⌋ : ℤ) : ℚ) ∧
    (2/5 < metricsHighDrain.tubeDrainRates.values.sum / 5) ∧
    (generateRecommendations DEFAULT_OBJECTIVE DEFAULT_ENGINE_CONFIG
        metricsHighDrain).refillAmount =
      some (min 5 (DEFAULT_ENGINE_CONFIG.refillAmount + 1)) := by
  have h1 : (1:ℚ)/100 < |DEFAULT_OBJECTIVE.targetEdge - metricsHighDrain.houseEdge| := by
    norm_num [DEFAULT_OBJECTIVE, metricsHighDrain, abs_of_pos]
  have h3 : (3:ℚ)/10 < metricsHighDrain.tubeDrainRates.values.sum / 5 := by
    norm_num [metricsHighDrain, TubeBalances.values]
  have h5 : (3:ℚ)/10 < metricsHighDrain.tubeDrainRates.get TubeType.ST := by
    norm_num [metricsHighDrain, TubeBalances.get]
  have h7 : (2:ℚ)/5 < metricsHighDrain.tubeDrainRates.values.sum / 5 := by
    norm_num [metricsHighDrain, TubeBalances.values]
  exact ⟨h1,
    (c9_recommendations_amended DEFAULT_OBJECTIVE DEFAULT_ENGINE_CONFIG metricsHighDrain).1 h1,
    h3,
    (c9_recommendations_amended DEFAULT_OBJECTIVE DEFAULT_ENGINE_CONFIG
      metricsHighDrain).2.2.1 h3,
    h5,
    ((c9_recommendations_amended DEFAULT_OBJECTIVE DEFAULT_ENGINE_CONFIG
      metricsHighDrain).2.2.2.2.1 TubeType.ST h5).1,
    h7,
    (c9_recommendations_amended DEFAULT_OBJECTIVE DEFAULT_ENGINE_CONFIG
      metricsHighDrain).2.2.2.2.2.2.1 h7⟩

/-- Insertion keeps exactly the inserted element and the old ones. -/
theorem mem_insertByPriorityDesc (x r : HTRule) (l : List HTRule) :
    x ∈ insertByPriorityDesc r l ↔ x = r ∨ x ∈ l := by
  induction l with
  | nil => simp [insertByPriorityDesc]
  | cons y ys ih =>
    simp only [insertByPriorityDesc]
    by_cases h : y.priority < r.priority
    · simp [h, List.mem_cons]
    · simp only [h, if_false, List.mem_cons, ih]
      tauto

/-- The priority sort is a permutation as far as membership goes. -/
theorem mem_sortByPriorityDesc (x : HTRule) (l : List HTRule) :
    x ∈ sortByPriorityDesc l ↔ x ∈ l := by
  induction l with
  | nil => simp [sortByPriorityDesc]
  | cons y ys ih =>
    simp [sortByPriorityDesc, mem_insertByPriorityDesc, ih]

/-- A decision produced by the matching loop carries the id of one of the
rules in the list it was run over. -/
theorem firstMatch_mem (rules : List HTRule) (cards : List Card) (hr : HandResult)
    (d : HTDecision) (h : firstMatch rules cards hr = some d) :
    ∃ r ∈ rules, d.htId = r.id := by
  induction rules with
  | nil => simp [firstMatch] at h
  | cons r rs ih =>
    rw [firstMatch, List.findSome?_cons] at h
    cases hm : (r.matcher cards hr) with
    | some holds =>
      simp only [hm, Option.map_some] at h
      refine ⟨r, List.mem_cons_self r rs, ?_⟩
      cases h
      rfl
    | none =>
      simp only [hm, Option.map_none] at h
      obtain ⟨r1, hr1, hid⟩ := ih h
      exact ⟨r1, List.mem_cons_of_mem r hr1, hid⟩

/-- Source `shouldDisable` on a cons splits into the head exploit and the rest. -/
theorem shouldDisable_cons (maxExploitEV : ℚ) (e : String × ℚ)
    (es : List (String × ℚ)) (id : String) :
    shouldDisable maxExploitEV (e :: es) id ↔
      (e.1 = id ∧ maxExploitEV * 2 < e.2) ∨ shouldDisable maxExploitEV es id := by
  constructor
  · rintro ⟨e1, he1, hid, hgt⟩
    rcases List.mem_cons.mp he1 with h | h
    · subst h; exact Or.inl ⟨hid, hgt⟩
    · exact Or.inr ⟨e1, h, hid, hgt⟩
  · rintro (⟨hid, hgt⟩ | ⟨e1, he1, hid, hgt⟩)
    · exact ⟨e, List.mem_cons_self e es, hid, hgt⟩
    · exact ⟨e1, List.mem_cons_of_mem e he1, hid, hgt⟩

/-- Source `mitigateExploits` maps the rule list: the enabled flag is cleared on
exactly the rules named by an exploit above twice the ceiling, and no other
field or rule changes. -/
theorem mitigateExploits_rules (maxExploitEV : ℚ) (exploits : List (String × ℚ)) :
    ∀ st : HTRegistryState,
      (mitigateExploits maxExploitEV st exploits).rules =
        st.rules.map (fun r =>
          if shouldDisable maxExploitEV exploits r.id then { r with enabled := false }
          else r) := by
  induction exploits with
  | nil =>
    intro st
    simp [mitigateExploits, shouldDisable]
  | cons e es ih =>
    intro st
    show (mitigateExploits maxExploitEV
      (if e.2 > maxExploitEV * 2 then setEnabled st e.1 false else st) es).rules = _
    rw [ih]
    by_cases hc : e.2 > maxExploitEV * 2
    · rw [if_pos hc]
      simp only [setEnabled, List.map_map]
      apply List.map_congr_left
      intro r _
      simp only [Function.comp_apply]
      by_cases hid : r.id = e.1
      · have hsd : shouldDisable maxExploitEV (e :: es) r.id :=
          (shouldDisable_cons maxExploitEV e es r.id).mpr (Or.inl ⟨hid.symm, hc⟩)
        rw [if_pos hid, if_pos hsd]
        by_cases hsd2 : shouldDisable maxExploitEV es r.id
        · rw [if_pos hsd2]
        · rw [if_neg hsd2]
      · rw [if_neg hid]
        by_cases hsd2 : shouldDisable maxExploitEV es r.id
        · have hsd : shouldDisable maxExploitEV (e :: es) r.id :=
            (shouldDisable_cons maxExploitEV e es r.id).mpr (Or.inr hsd2)
          rw [if_pos hsd2, if_pos hsd]
        · have hsd : ¬ shouldDisable maxExploitEV (e :: es) r.id := by
            intro hsd
            rcases (shouldDisable_cons maxExploitEV e es r.id).mp hsd with ⟨h1, _⟩ | h2
            · exact hid h1.symm
            · exact hsd2 h2
          rw [if_neg hsd2, if_neg hsd]
    · rw [if_neg hc]
      apply List.map_congr_left
      intro r _
      by_cases hsd2 : shouldDisable maxExploitEV es r.id
      · have hsd : shouldDisable maxExploitEV (e :: es) r.id :=
          (shouldDisable_cons maxExploitEV e es r.id).mpr (Or.inr hsd2)
        rw [if_pos hsd2, if_pos hsd]
      · have hsd : ¬ shouldDisable maxExploitEV (e :: es) r.id := by
          intro hsd
          rcases (shouldDisable_cons maxExploitEV e es r.id).mp hsd with ⟨_, hgt⟩ | h2
          · exact hc hgt
          · exact hsd2 h2
        rw [if_neg hsd2, if_neg hsd]

/-- When every rule carrying a given id is disabled and the id is not the
fallback id, the decision engine never answers with that id. -/
theorem decide_never_returns_disabled (he : HandEval) (st : HTRegistryState)
    (cards : List Card) (htId : String) (d : HTDecision)
    (hall : (st.rules.all fun r => !(r.id == htId) || !r.enabled) = true)
    (hne : htId ≠ "H0.DRAW5")
    (hdec : HTRegistry.decide he st cards = Except.ok d) : d.htId ≠ htId := by
  unfold HTRegistry.decide at hdec
  by_cases h5 : cards.length = 5
  · rw [if_neg (by simp [h5])] at hdec
    cases hfm : firstMatch (getAllRules st) cards (he.evaluateHand cards) with
    | none =>
      simp only [hfm] at hdec
      injection hdec with hd
      subst hd
      exact Ne.symm hne
    | some d0 =>
      simp only [hfm] at hdec
      injection hdec with hd
      subst hd
      obtain ⟨r, hrmem, hid⟩ := firstMatch_mem _ _ _ _ hfm
      have hmemf : r ∈ st.rules.filter (fun r => r.enabled) :=
        (mem_sortByPriorityDesc r _).mp hrmem
      obtain ⟨hin, hen⟩ := List.mem_filter.mp hmemf
      have hallr := (List.all_eq_true.mp hall) r hin
      rw [hen] at hallr
      simp only [Bool.not_true, Bool.or_false, Bool.not_eq_true'] at hallr
      rw [hid]
      exact fun hcontra => by
        rw [hcontra] at hallr
        simp at hallr
  · rw [if_pos (by simp [h5])] at hdec
    cases hdec

/-- C7 amended: `mitigateExploits` clears the enabled flag of exactly the
rules reported with EV above twice the ceiling, and a disabled rule's id is
never returned by `decide` unless that id is the fallback id `H0.DRAW5`,
which the hard-coded fallback decision still reports even when the
`H0.DRAW5` rule itself is disabled. -/
theorem c7_mitigation_amended :
    (∀ (maxExploitEV : ℚ) (st : HTRegistryState) (exploits : List (String × ℚ)),
      (mitigateExploits maxExploitEV st exploits).rules =
        st.rules.map (fun r =>
          if shouldDisable maxExploitEV exploits r.id then { r with enabled := false }
          else r)) ∧
    (∀ (he : HandEval) (st : HTRegistryState) (cards : List Card) (htId : String)
        (d : HTDecision),
      (st.rules.all fun r => !(r.id == htId) || !r.enabled) = true →
      htId ≠ "H0.DRAW5" →
      HTRegistry.decide he st cards = Except.ok d →
      d.htId ≠ htId) :=
  ⟨fun maxExploitEV st exploits => mitigateExploits_rules maxExploitEV exploits st,
   fun he st cards htId d hall hne hdec =>
     decide_never_returns_disabled he st cards htId d hall hne hdec⟩

/-- The default registry after mitigation disables the fallback rule
`H0.DRAW5` itself (reported EV 0.05 against a ceiling of 0.02). -/
def registryNoDraw5 : HTRegistryState :=
  mitigateExploits (1/50) (defaultRegistry constHandEval) [("H0.DRAW5", 1/20)]

/-- C7 counterexample: after mitigation the rule `H0.DRAW5` is present and
disabled, yet `decide` on the sample hand still returns a decision whose id
is `H0.DRAW5` — the hard-coded fallback reports that id regardless of the
rule's flag, so a disabled rule's id can still be returned. -/
theorem c7_mitigation_counterexample :
    registryNoDraw5.rules.any (fun r => r.id == "H0.DRAW5") = true ∧
    (registryNoDraw5.rules.all fun r => !(r.id == "H0.DRAW5") || !r.enabled) = true ∧
    HTRegistry.decide constHandEval registryNoDraw5 sampleHand =
      Except.ok
        { htId := "H0.DRAW5", category := "H0", description := "Draw all 5"
          cardsToHold := [], expectedValue := 1/2, bustPotential := true } := by
  have hreg : registryNoDraw5 =
      setEnabled (defaultRegistry constHandEval) "H0.DRAW5" false := by
    show (if ((1:ℚ)/20 > (1/50) * 2) then
      setEnabled (defaultRegistry constHandEval) "H0.DRAW5" false
      else defaultRegistry constHandEval) = _
    rw [if_pos (by norm_num)]
  refine ⟨?_, ?_, ?_⟩ <;> rw [hreg] <;> rfl

/-- The default registry after mitigation disables `H1.HC`
(reported EV 0.1 against a ceiling of 0.02). -/
def registryNoHC : HTRegistryState :=
  mitigateExploits (1/50) (defaultRegistry constHandEval) [("H1.HC", 1/10)]

/-- A concrete high-card hand containing an ace. -/
def handWithAce : List Card :=
  [ { rank := .ace, suit := .clubs }
  , { rank := .four, suit := .diamonds }
  , { rank := .six, suit := .hearts }
  , { rank := .eight, suit := .spades }
  , { rank := .ten, suit := .clubs } ]

/-- The decision actually returned for that hand once `H1.HC` is disabled:
the rule-list `H0.DRAW5` rule matches. -/
def draw5Decision : HTDecision :=
  { htId := "H0.DRAW5", category := "H0", description := "Draw all 5 - no holdings"
    cardsToHold := [], expectedValue := 1/2, bustPotential := true }

/-- Witness for C7 amended: `H1.HC` is everywhere disabled after
mitigation, it is not the fallback id, and the decision returned for a hand
that would have used it carries a different id. -/
theorem c7_mitigation_amended_witness :
    (registryNoHC.rules.all fun r => !(r.id == "H1.HC") || !r.enabled) = true ∧
    "H1.HC" ≠ "H0.DRAW5" ∧
    HTRegistry.decide constHandEval registryNoHC handWithAce = Except.ok draw5Decision ∧
    draw5Decision.htId ≠ "H1.HC" := by
  have hreg : registryNoHC = setEnabled (defaultRegistry constHandEval) "H1.HC" false := by
    show (if ((1:ℚ)/10 > (1/50) * 2) then
      setEnabled (defaultRegistry constHandEval) "H1.HC" false
      else defaultRegistry constHandEval) = _
    rw [if_pos (by norm_num)]
  have hall : (registryNoHC.rules.all fun r => !(r.id == "H1.HC") || !r.enabled) = true := by
    rw [hreg]; rfl
  have hdec : HTRegistry.decide constHandEval registryNoHC handWithAce =
      Except.ok draw5Decision := by
    rw [hreg]; rfl
  exact ⟨hall, by decide, hdec,
    c7_mitigation_amended.2 constHandEval registryNoHC handWithAce ("H1.HC") draw5Decision
      hall (by decide) hdec⟩
